import Mathlib

/-!
Verification development for the `download_treasure_data` repository
(`src/tesouro_data.py`): a shallow embedding in Lean 4 of the Tesouro
Direto download-and-clean pipeline, together with theorems settling the
spec's claims about it.

Modelling conventions:
* Python strings are Lean `String`s; `str.replace` is `String.replace`.
* The regex `\d{6}$` (Python `re.search`) is modelled over the character
  list: it succeeds iff the string ends with a run of at least 6 decimal
  digits, matching the last 6 of them; following Python's `$` semantics
  (no `re.MULTILINE`), a single final newline may additionally stand
  after the matched digits.  `\d` is modelled as the ASCII digits
  (`Char.isDigit`); we never instantiate theorems at non-ASCII inputs.
* `datetime.date(year, month, day)` is modelled by `mkValidDate`, which
  checks the proleptic-Gregorian validity conditions Python checks and
  returns `none` where Python raises `ValueError` (the caller catches it).
* The filesystem is an association list from paths to file contents; the
  HTTP session is an oracle `String → Nat → Option String` giving the
  response body for an (asset, year) request, `none` meaning any
  `requests.RequestException` (connection error or non-2xx after retry).
  Network activity is counted by a `calls` counter threaded through.
* pandas `DataFrame`s are lists of records; `pd.to_numeric(errors=coerce)`
  and `pd.to_datetime(format=%d/%m/%Y, errors=coerce)` are abstract
  parameters `toNum : String → Option ℚ` and `toDate : String → Option PyDate`
  (external collaborator behaviour), `none` modelling NaN/NaT.
-/

namespace TesouroData

/-- `TesouroDireto.AVAILABLE_ASSETS` from the source (line 41). -/
def AVAILABLE_ASSETS : List String :=
  ["LFT", "LTN", "NTN-C", "NTN-B", "NTN-B_Principal", "NTN-F"]

/-- `TesouroDireto.FIRST_YEAR` from the source (line 47). -/
def FIRST_YEAR : Nat := 2005

/-- Left-to-right non-overlapping substring replacement over character
lists, the semantics of Python `str.replace` for a non-empty pattern.
The fuel argument (instantiated with the list length) only makes the
recursion structural; it is never exhausted. -/
def replaceFuel (pat rep : List Char) : Nat → List Char → List Char
  | _, [] => []
  | 0, l => l
  | fuel + 1, c :: rest =>
    if !pat.isEmpty && pat.isPrefixOf (c :: rest) then
      rep ++ replaceFuel pat rep fuel ((c :: rest).drop pat.length)
    else c :: replaceFuel pat rep fuel rest

/-- Python `s.replace(pat, rep)` for non-empty `pat`. -/
def pyReplace (s pat rep : String) : String :=
  ⟨replaceFuel pat.data rep.data s.data.length s.data⟩

/-- `_normalize_asset_code`: `asset_code.replace(" ", "_").replace("-", "_")`. -/
def normalize_asset_code (asset_code : String) : String :=
  pyReplace (pyReplace asset_code " " "_") "-" "_"

/-- `_denormalize_asset_code`: the fixed ordered substring replacements of
lines 102–106, applied in source order. -/
def denormalize_asset_code (asset_code : String) : String :=
  let s1 := pyReplace asset_code "NTN_B_Principal" "NTN-B Principal"
  let s2 := pyReplace s1 "NTN_F" "NTN-F"
  let s3 := pyReplace s2 "NTN_B" "NTN-B"
  let s4 := pyReplace s3 "NTN_C" "NTN-C"
  pyReplace s4 "_" " "

/-- `asset_code.replace(' ', '')`: remove every space character. -/
def stripSpaces (s : String) : String := ⟨s.data.filter (fun c => !(c == ' '))⟩

/-- Length of the maximal run of decimal digits at the end of `l`. -/
def trailingDigitRun (l : List Char) : Nat :=
  (l.reverse.takeWhile Char.isDigit).length

/-- Attempt of the pattern `(\d{6})$` with `$` taken at the very end of the
string: succeeds iff the string ends with at least 6 digits, and the
group captured is the last 6 characters. -/
def matchSixAtEnd (l : List Char) : Option (List Char) :=
  let run := l.reverse.takeWhile Char.isDigit
  if 6 ≤ run.length then some (run.take 6).reverse else none

/-- `re.search(r'(\d{6})$', s)` over the characters of `s`: Python's `$`
matches at the end of the string or just before one final newline. -/
def searchSixDollar (l : List Char) : Option (List Char) :=
  match matchSixAtEnd l with
  | some g => some g
  | none =>
    match l.getLast? with
    | some c => if c = '\n' then matchSixAtEnd l.dropLast else none
    | none => none

/-- Value of an ASCII digit character (`int` on a one-digit string). -/
def digitVal (c : Char) : Nat := c.toNat - 48

/-- A `datetime.date` value. -/
structure PyDate where
  year : Nat
  month : Nat
  day : Nat
deriving DecidableEq, Repr

/-- Gregorian leap-year rule, as used by `datetime`. -/
def isLeapYear (y : Nat) : Bool := (y % 4 == 0 && y % 100 != 0) || y % 400 == 0

/-- Number of days in a month of a given year. -/
def daysInMonth (y m : Nat) : Nat :=
  if m = 2 then (if isLeapYear y then 29 else 28)
  else if m = 4 ∨ m = 6 ∨ m = 9 ∨ m = 11 then 30
  else 31

/-- `datetime.date(y, m, d)`, with `none` where Python raises `ValueError`. -/
def mkValidDate (y m d : Nat) : Option PyDate :=
  if 1 ≤ y ∧ y ≤ 9999 ∧ 1 ≤ m ∧ m ≤ 12 ∧ 1 ≤ d ∧ d ≤ daysInMonth y m then
    some ⟨y, m, d⟩
  else none

/-- `_get_maturity_date` (source lines 109–139): strip spaces, search for a
trailing `ddmmyy` digit group, interpret day/month/two-digit year with the
century rule `yy ≤ 50 → 2000s, else 1900s`, and build the date, returning
`none` when the group is absent or the date is invalid. -/
def get_maturity_date (asset_code : String) : Option PyDate :=
  match searchSixDollar (stripSpaces asset_code).data with
  | none => none
  | some ds =>
    match ds with
    | [d1, d2, m1, m2, y1, y2] =>
      let day := digitVal d1 * 10 + digitVal d2
      let month := digitVal m1 * 10 + digitVal m2
      let yy := digitVal y1 * 10 + digitVal y2
      let year := if yy ≤ 50 then yy + 2000 else yy + 1900
      mkValidDate year month day
    | _ => none

example : get_maturity_date "LTN 010123" = some ⟨2023, 1, 1⟩ := by decide
example : get_maturity_date "NTN-B Principal 150545" = some ⟨2045, 5, 15⟩ := by decide
example : get_maturity_date "LTN 311399" = none := by decide
example : get_maturity_date "LTN 0010123" = some ⟨2023, 1, 1⟩ := by decide
example : denormalize_asset_code (normalize_asset_code "NTN-B_Principal") =
    "NTN-B Principal" := by decide
example : denormalize_asset_code (normalize_asset_code "NTN-B") = "NTN-B" := by decide

/-! ## Filesystem, HTTP session, and `_download_file` (source lines 141–181) -/

/-- The local filesystem: an association list from paths to file contents
(most recent write first). -/
structure FS where
  files : List (String × String)
deriving DecidableEq, Repr

/-- Content of the file at `p`, if it exists. -/
def FS.lookup (fs : FS) (p : String) : Option String :=
  (fs.files.find? (fun e => e.1 == p)).map (fun e => e.2)

/-- `Path.exists()`. -/
def FS.existsFile (fs : FS) (p : String) : Bool := (FS.lookup fs p).isSome

/-- `open(p, 'wb'); f.write(content)`: truncating write. -/
def FS.write (fs : FS) (p content : String) : FS := ⟨(p, content) :: fs.files⟩

/-- A filesystem with no files. -/
def emptyFS : FS := ⟨[]⟩

/-- Effect state threaded through the pipeline: the filesystem plus a count
of network GETs issued. -/
structure St where
  fs : FS
  calls : Nat
deriving DecidableEq, Repr

/-- The deterministic cache path
`<cacheDir>/<normalized>/<normalized>_<year>.xls` (source lines 152–157). -/
def localFilePath (cacheDir asset_code : String) (year : Nat) : String :=
  let normalized := normalize_asset_code asset_code
  cacheDir ++ "/" ++ normalized ++ "/" ++ normalized ++ "_" ++ toString year ++ ".xls"

/-- `_download_file`: skip the download and return the cached path when the
file exists and `year != datetime.now().year`; otherwise issue one GET
(`oracle` returns the response body, or `none` for any
`requests.RequestException` after retries), write the body on success, and
return `none` on failure. -/
def download_file (oracle : String → Nat → Option String) (currentYear : Nat)
    (cacheDir : String) (st : St) (asset_code : String) (year : Nat) :
    Option String × St :=
  let localFile := localFilePath cacheDir asset_code year
  if st.fs.existsFile localFile && year != currentYear then
    (some localFile, st)
  else
    match oracle asset_code year with
    | some body => (some localFile, ⟨st.fs.write localFile body, st.calls + 1⟩)
    | none => (none, ⟨st.fs, st.calls + 1⟩)

/-! ## `_clean_data` and `_read_excel_file` (source lines 183–252) -/

/-- A raw spreadsheet row, restricted to the five positional columns
`df.iloc[:, [0, 1, 2, 3, 4]]` that `_clean_data` selects. -/
structure RawRow where
  c0 : String
  c1 : String
  c2 : String
  c3 : String
  c4 : String
deriving DecidableEq, Repr

/-- A row after type coercion: `none` models NaN/NaT from
`errors='coerce'`. -/
structure CleanRow where
  ref_date : Option PyDate
  yield_bid : Option ℚ
  yield_ask : Option ℚ
  price_bid : Option ℚ
  price_ask : Option ℚ
deriving DecidableEq, Repr

/-- The coercion step of `_clean_data`: `pd.to_datetime` on column 0 and
`pd.to_numeric` on columns 1–4, both with `errors='coerce'`. -/
def coerceRow (toNum : String → Option ℚ) (toDate : String → Option PyDate)
    (r : RawRow) : CleanRow :=
  ⟨toDate r.c0, toNum r.c1, toNum r.c2, toNum r.c3, toNum r.c4⟩

/-- `dropna` keeps a row iff all five fields are present. -/
def rowComplete (r : CleanRow) : Bool :=
  r.ref_date.isSome && r.yield_bid.isSome && r.yield_ask.isSome &&
    r.price_bid.isSome && r.price_ask.isSome

/-- `_clean_data` (source lines 183–208): empty guard, positional column
selection (already in `RawRow`), coercion, `dropna`, and the
`price_bid != 0` filter, in source order. -/
def clean_data (toNum : String → Option ℚ) (toDate : String → Option PyDate)
    (rows : List RawRow) : List CleanRow :=
  if rows.isEmpty then []
  else
    ((rows.map (coerceRow toNum toDate)).filter rowComplete).filter
      (fun r => decide (r.price_bid ≠ some (0 : ℚ)))

/-- A cleaned row tagged with its sheet name (`df['asset_code'] = sheet_name`). -/
structure DataRow where
  ref_date : Option PyDate
  yield_bid : Option ℚ
  yield_ask : Option ℚ
  price_bid : Option ℚ
  price_ask : Option ℚ
  asset_code : String
deriving DecidableEq, Repr

/-- Attach the sheet name to a cleaned row. -/
def tagAsset (r : CleanRow) (name : String) : DataRow :=
  ⟨r.ref_date, r.yield_bid, r.yield_ask, r.price_bid, r.price_ask, name⟩

/-- `_read_excel_file` (source lines 210–252).  `parse` is the tabular-file
collaborator (`pd.ExcelFile` + per-sheet `pd.read_excel` with
`skiprows=1`): from the file content it yields the sheet list, each sheet a
name with its post-skip rows, or `none` when the file is corrupt.  A
missing or unparseable file yields the empty table (the `except` branch),
and sheets whose raw or cleaned table is empty contribute no rows. -/
def read_excel_file (parse : String → Option (List (String × List RawRow)))
    (toNum : String → Option ℚ) (toDate : String → Option PyDate)
    (fs : FS) (path : String) : List DataRow :=
  match fs.lookup path with
  | none => []
  | some content =>
    match parse content with
    | none => []
    | some sheets =>
      (sheets.map (fun sheet =>
        if sheet.2.isEmpty then []
        else (clean_data toNum toDate sheet.2).map (fun r => tagAsset r sheet.1))).flatten

/-! ## Consolidation and `get_treasury_data` (source lines 254–343) -/

/-- A consolidated output row, with the denormalized asset code and the
inferred maturity date. -/
structure OutRow where
  ref_date : Option PyDate
  yield_bid : Option ℚ
  yield_ask : Option ℚ
  price_bid : Option ℚ
  price_ask : Option ℚ
  asset_code : String
  maturity_date : Option PyDate
deriving DecidableEq, Repr

/-- `result['asset_code'].apply(self._denormalize_asset_code)` (line 330). -/
def denormRow (r : DataRow) : DataRow :=
  { r with asset_code := denormalize_asset_code r.asset_code }

/-- `result['maturity_date'] = result['asset_code'].apply(self._get_maturity_date)`
(line 333). -/
def addMaturity (r : DataRow) : OutRow :=
  ⟨r.ref_date, r.yield_bid, r.yield_ask, r.price_bid, r.price_ask,
    r.asset_code, get_maturity_date r.asset_code⟩

/-- Numeric key giving the calendar order on parsed dates
(`yyyy * 10000 + mm * 100 + dd`); `none` (never present after cleaning)
sorts first. -/
def dateKey : Option PyDate → Nat
  | none => 0
  | some d => d.year * 10000 + d.month * 100 + d.day

/-- The comparison used by `result.sort_values(['asset_code', 'ref_date'])`:
lexicographic on the asset code (string order) then the reference date. -/
def rowLE (r1 r2 : OutRow) : Bool :=
  decide (r1.asset_code < r2.asset_code ∨
    (r1.asset_code = r2.asset_code ∧ dateKey r1.ref_date ≤ dateKey r2.ref_date))

/-- `result.sort_values(['asset_code', 'ref_date'])`. -/
def sortRows (rows : List OutRow) : List OutRow := rows.mergeSort rowLE

/-- One iteration of the download loop (lines 303–306): invoke
`_download_file` and append the path when it succeeded. -/
def fetchStep (oracle : String → Nat → Option String) (currentYear : Nat)
    (cacheDir : String) (acc : List String × St) (a : String) (y : Nat) :
    List String × St :=
  let r := download_file oracle currentYear cacheDir acc.2 a y
  match r.1 with
  | some p => (acc.1 ++ [p], r.2)
  | none => (acc.1, r.2)

/-- The nested download loops of lines 301–307, in source order. -/
def fetchAll (oracle : String → Nat → Option String) (currentYear : Nat)
    (cacheDir : String) (assets : List String) (years : List Nat) (st0 : St) :
    List String × St :=
  assets.foldl
    (fun acc a => years.foldl
      (fun acc2 y => fetchStep oracle currentYear cacheDir acc2 a y) acc)
    ([], st0)

/-- `get_treasury_data` (source lines 254–343): clamp `first_year` to
`FIRST_YEAR`, default `last_year` to the current year and `asset_codes` to
the catalog, fail on any non-catalog code (`ValueError`, modelled as
`Except.error` carrying the invalid codes), fetch the
(asset × year) matrix, parse and clean each fetched file, and consolidate:
denormalize the asset codes, add maturity dates, and sort.  Empty fetch or
parse results return the empty dataset. -/
def get_treasury_data (oracle : String → Nat → Option String)
    (parse : String → Option (List (String × List RawRow)))
    (toNum : String → Option ℚ) (toDate : String → Option PyDate)
    (currentYear : Nat) (cacheDir : String) (fs0 : FS)
    (asset_codes? : Option (List String)) (first_year : Nat)
    (last_year? : Option Nat) :
    Except (List String) (List OutRow) × St :=
  let fy := if first_year < FIRST_YEAR then FIRST_YEAR else first_year
  let ly := last_year?.getD currentYear
  let codes := asset_codes?.getD AVAILABLE_ASSETS
  let invalid := codes.filter (fun c => !(AVAILABLE_ASSETS.contains c))
  if invalid.isEmpty then
    let years := List.range' fy (ly + 1 - fy)
    let fr := fetchAll oracle currentYear cacheDir codes years ⟨fs0, 0⟩
    if fr.1.isEmpty then (Except.ok [], fr.2)
    else
      let all_data := (fr.1.map
        (fun p => read_excel_file parse toNum toDate fr.2.fs p)).filter
          (fun d => !d.isEmpty)
      if all_data.isEmpty then (Except.ok [], fr.2)
      else
        (Except.ok (sortRows ((all_data.flatten.map denormRow).map addMaturity)), fr.2)
  else (Except.error invalid, ⟨fs0, 0⟩)

/-! ## Python list objects for `get_available_assets` (source lines 75–77,
371–378) -/

/-- A heap of Python list objects holding strings, with a fresh-address
counter: the minimal model needed to talk about aliasing and `.copy()`. -/
structure Heap where
  next : Nat
  store : List (Nat × List String)
deriving DecidableEq, Repr

/-- The element list of the object at address `a`. -/
def Heap.get (h : Heap) (a : Nat) : Option (List String) :=
  (h.store.find? (fun e => e.1 == a)).map (fun e => e.2)

/-- Allocate a fresh list object with elements `v`. -/
def Heap.alloc (h : Heap) (v : List String) : Nat × Heap :=
  (h.next, ⟨h.next + 1, (h.next, v) :: h.store⟩)

/-- In-place mutation of the list object at address `a`. -/
def Heap.set (h : Heap) (a : Nat) (v : List String) : Heap :=
  ⟨h.next, (a, v) :: h.store⟩

/-- `get_available_assets` — both `TesouroDireto.get_available_assets`
(line 77) and the module-level function (line 378) execute
`AVAILABLE_ASSETS.copy()`: read the catalog list object and allocate a
fresh list with the same elements. -/
def get_available_assets (h : Heap) (catalogAddr : Nat) : Nat × Heap :=
  match h.get catalogAddr with
  | some v => h.alloc v
  | none => h.alloc []

/-! ## Helper lemmas -/

/-- Python's `$` position: the end of the string, ignoring one final
newline if present. -/
def dropFinalNewline (l : List Char) : List Char :=
  match l.getLast? with
  | some c => if c = '\n' then l.dropLast else l
  | none => l

theorem matchSixAtEnd_eq_none (l : List Char) (h : trailingDigitRun l < 6) :
    matchSixAtEnd l = none := by
  simp only [matchSixAtEnd]
  rw [if_neg]
  simpa [trailingDigitRun] using Nat.not_le.mpr h

theorem trailingDigitRun_eq_zero_of_last_newline (l : List Char)
    (h : l.getLast? = some '\x0a') : trailingDigitRun l = 0 := by
  unfold trailingDigitRun
  have h1 : l.reverse.head? = some '\x0a' := by
    rw [List.head?_reverse]; exact h
  cases hr : l.reverse with
  | nil => simp
  | cons a tl =>
    rw [hr] at h1
    simp only [List.head?_cons, Option.some.injEq] at h1
    subst h1
    simp [List.takeWhile_cons]

theorem dropFinalNewline_of_getLast?_none (l : List Char)
    (hl : l.getLast? = none) : dropFinalNewline l = l := by
  unfold dropFinalNewline
  rw [hl]

theorem dropFinalNewline_of_getLast?_newline (l : List Char)
    (hl : l.getLast? = some '\x0a') : dropFinalNewline l = l.dropLast := by
  unfold dropFinalNewline
  rw [hl]
  simp

theorem dropFinalNewline_of_getLast?_ne (l : List Char) (c : Char)
    (hl : l.getLast? = some c) (hc : c ≠ '\x0a') : dropFinalNewline l = l := by
  unfold dropFinalNewline
  rw [hl]
  simp [hc]

theorem searchSixDollar_eq_none (l : List Char)
    (h : trailingDigitRun (dropFinalNewline l) < 6) :
    searchSixDollar l = none := by
  cases hl : l.getLast? with
  | none =>
    rw [dropFinalNewline_of_getLast?_none l hl] at h
    simp [searchSixDollar, matchSixAtEnd_eq_none l h, hl]
  | some c =>
    by_cases hc : c = '\x0a'
    · subst hc
      rw [dropFinalNewline_of_getLast?_newline l hl] at h
      have h0 : matchSixAtEnd l = none := matchSixAtEnd_eq_none l
        (by rw [trailingDigitRun_eq_zero_of_last_newline l hl]; omega)
      simp [searchSixDollar, h0, hl, matchSixAtEnd_eq_none _ h]
    · rw [dropFinalNewline_of_getLast?_ne l c hl hc] at h
      simp [searchSixDollar, matchSixAtEnd_eq_none l h, hl, hc]

/-! ## Claims C1–C3 -/

/-- Claim C1 counterexample: the catalog entry `"NTN-B_Principal"` does not
round-trip — normalizing gives `"NTN_B_Principal"`, which denormalizes to
`"NTN-B Principal"` (space, not underscore). -/
theorem C1_roundtrip_counterexample :
    "NTN-B_Principal" ∈ AVAILABLE_ASSETS ∧
    denormalize_asset_code (normalize_asset_code "NTN-B_Principal") =
      "NTN-B Principal" ∧
    denormalize_asset_code (normalize_asset_code "NTN-B_Principal") ≠
      "NTN-B_Principal" := by
  refine ⟨by decide, by decide, by decide⟩

/-- Claim C1 (amended): applying `_normalize_asset_code` then
`_denormalize_asset_code` returns every catalog code unchanged, except
the entry `"NTN-B_Principal"`, which comes back as `"NTN-B Principal"`. -/
theorem C1_catalog_roundtrip (code : String) (hmem : code ∈ AVAILABLE_ASSETS)
    (hne : code ≠ "NTN-B_Principal") :
    denormalize_asset_code (normalize_asset_code code) = code := by
  simp only [AVAILABLE_ASSETS, List.mem_cons, List.not_mem_nil, or_false] at hmem
  rcases hmem with rfl | rfl | rfl | rfl | rfl | rfl
  · decide
  · decide
  · decide
  · decide
  · exact absurd rfl hne
  · decide

theorem C1_catalog_roundtrip_witness :
    denormalize_asset_code (normalize_asset_code "LTN") = "LTN" :=
  C1_catalog_roundtrip "LTN" (by decide) (by decide)

/-- Claim C2: `_get_maturity_date` maps `"LTN 010123"` to 2023-01-01 and
`"NTN-B Principal 150545"` to 2045-05-15 (two-digit year 45 ≤ 50 → 2000s),
and returns `none` on `"LTN 311399"` because month 13 is invalid. -/
theorem C2_maturity_examples :
    get_maturity_date "LTN 010123" = some ⟨2023, 1, 1⟩ ∧
    get_maturity_date "NTN-B Principal 150545" = some ⟨2045, 5, 15⟩ ∧
    get_maturity_date "LTN 311399" = none := by
  refine ⟨by decide, by decide, by decide⟩

/-- Claim C3 counterexample: `"LTN 0010123"` strips to a string whose
trailing digit run has length 7 — not exactly 6 — yet `_get_maturity_date`
returns a date rather than `none`: the regex `(\d{6})$` matches the *last
six* digits of any longer trailing run. -/
theorem C3_exact_six_counterexample :
    trailingDigitRun (stripSpaces "LTN 0010123").data = 7 ∧
    get_maturity_date "LTN 0010123" = some ⟨2023, 1, 1⟩ := by
  refine ⟨by decide, by decide⟩

/-- Claim C3 (amended): for every input string whose space-stripped form
ends in a run of fewer than 6 digits (ignoring one final newline, where
Python's `$` also matches), `_get_maturity_date` returns `none` (not an
error).  In particular shorter-than-6 digit runs yield `none`; a run
longer than 6 digits, however, parses its last 6 digits. -/
theorem C3_short_run_gives_none (s : String)
    (h : trailingDigitRun (dropFinalNewline (stripSpaces s).data) < 6) :
    get_maturity_date s = none := by
  unfold get_maturity_date
  rw [searchSixDollar_eq_none _ h]

theorem C3_short_run_gives_none_witness :
    trailingDigitRun (dropFinalNewline (stripSpaces "LTN 12345").data) < 6 ∧
    get_maturity_date "LTN 12345" = none :=
  ⟨by decide, C3_short_run_gives_none "LTN 12345" (by decide)⟩

/-! ## Claims C4–C6 -/

/-- Claim C4: `_download_file` returns the existing cache path with no
network access when the file exists and the year is not the current year;
otherwise it issues one GET and, on HTTP success, writes the full response
body to that path and returns it.  Consequently a second request for the
same pair with a year below the current year issues zero additional
network calls (given the first returned a path), while a request for the
current year increments the call count on every invocation. -/
theorem FS.existsFile_write_self (fs : FS) (p content : String) :
    (fs.write p content).existsFile p = true := by
  simp [FS.existsFile, FS.write, FS.lookup]

theorem download_file_cache_hit (oracle : String → Nat → Option String)
    (currentYear : Nat) (cacheDir : String) (st : St) (a : String) (y : Nat)
    (h1 : st.fs.existsFile (localFilePath cacheDir a y) = true)
    (h2 : y ≠ currentYear) :
    download_file oracle currentYear cacheDir st a y =
      (some (localFilePath cacheDir a y), st) := by
  unfold download_file
  rw [if_pos (by simp [h1, h2])]

theorem download_file_miss_success (oracle : String → Nat → Option String)
    (currentYear : Nat) (cacheDir : String) (st : St) (a : String) (y : Nat)
    (body : String)
    (hcond : ¬(st.fs.existsFile (localFilePath cacheDir a y) = true ∧
      y ≠ currentYear))
    (ho : oracle a y = some body) :
    download_file oracle currentYear cacheDir st a y =
      (some (localFilePath cacheDir a y),
        ⟨st.fs.write (localFilePath cacheDir a y) body, st.calls + 1⟩) := by
  unfold download_file
  rw [if_neg (by simpa [not_and] using fun h1 h2 => hcond ⟨h1, h2⟩), ho]

theorem download_file_miss_fail (oracle : String → Nat → Option String)
    (currentYear : Nat) (cacheDir : String) (st : St) (a : String) (y : Nat)
    (hcond : ¬(st.fs.existsFile (localFilePath cacheDir a y) = true ∧
      y ≠ currentYear))
    (ho : oracle a y = none) :
    download_file oracle currentYear cacheDir st a y =
      (none, ⟨st.fs, st.calls + 1⟩) := by
  unfold download_file
  rw [if_neg (by simpa [not_and] using fun h1 h2 => hcond ⟨h1, h2⟩), ho]

/-- Claim C4: `_download_file` returns the existing cache path with no
network access when the file exists and the year is not the current year;
otherwise it issues one GET and, on HTTP success, writes the full response
body to that path and returns it.  Consequently a second request for the
same pair with a year below the current year issues zero additional
network calls (given the first returned a path), while a request for the
current year increments the call count on every invocation. -/
theorem C4_cache_policy (oracle oracle2 : String → Nat → Option String)
    (currentYear : Nat) (cacheDir : String) (st : St)
    (asset_code : String) (year : Nat) :
    ((st.fs.existsFile (localFilePath cacheDir asset_code year) = true ∧
        year ≠ currentYear) →
      download_file oracle currentYear cacheDir st asset_code year =
        (some (localFilePath cacheDir asset_code year), st)) ∧
    (¬(st.fs.existsFile (localFilePath cacheDir asset_code year) = true ∧
        year ≠ currentYear) →
      (download_file oracle currentYear cacheDir st asset_code year).2.calls
          = st.calls + 1 ∧
      ∀ body, oracle asset_code year = some body →
        (download_file oracle currentYear cacheDir st asset_code year).1 =
          some (localFilePath cacheDir asset_code year) ∧
        (download_file oracle currentYear cacheDir st asset_code
            year).2.fs.lookup (localFilePath cacheDir asset_code year) =
          some body) ∧
    (year < currentYear →
      (download_file oracle currentYear cacheDir st asset_code year).1 =
        some (localFilePath cacheDir asset_code year) →
      (download_file oracle2 currentYear cacheDir
          (download_file oracle currentYear cacheDir st asset_code year).2
          asset_code year).2.calls =
        (download_file oracle currentYear cacheDir st asset_code
          year).2.calls) ∧
    (year = currentYear →
      (download_file oracle currentYear cacheDir st asset_code
        year).2.calls = st.calls + 1) := by
  refine ⟨fun h => download_file_cache_hit oracle currentYear cacheDir st
    asset_code year h.1 h.2, ?_, ?_, ?_⟩
  · intro hnot
    cases ho : oracle asset_code year with
    | none =>
      rw [download_file_miss_fail oracle currentYear cacheDir st asset_code
        year hnot ho]
      exact ⟨rfl, fun b hb => by cases hb⟩
    | some body =>
      rw [download_file_miss_success oracle currentYear cacheDir st asset_code
        year body hnot ho]
      refine ⟨rfl, fun b hb => ?_⟩
      obtain rfl : body = b := Option.some.inj hb
      exact ⟨rfl, by simp [FS.write, FS.lookup]⟩
  · intro hy hsome
    have hy2 : year ≠ currentYear := Nat.ne_of_lt hy
    by_cases hex : st.fs.existsFile (localFilePath cacheDir asset_code year)
        = true ∧ year ≠ currentYear
    · rw [download_file_cache_hit oracle currentYear cacheDir st asset_code
        year hex.1 hex.2]
      rw [download_file_cache_hit oracle2 currentYear cacheDir st asset_code
        year hex.1 hex.2]
    · cases ho : oracle asset_code year with
      | none =>
        rw [download_file_miss_fail oracle currentYear cacheDir st asset_code
          year hex ho] at hsome
        cases hsome
      | some body =>
        rw [download_file_miss_success oracle currentYear cacheDir st
          asset_code year body hex ho]
        rw [download_file_cache_hit oracle2 currentYear cacheDir _ asset_code
          year (FS.existsFile_write_self st.fs _ body) hy2]
  · intro hy
    have hnot : ¬(st.fs.existsFile (localFilePath cacheDir asset_code year)
        = true ∧ year ≠ currentYear) := fun h => h.2 hy
    cases ho : oracle asset_code year with
    | none =>
      rw [download_file_miss_fail oracle currentYear cacheDir st asset_code
        year hnot ho]
    | some body =>
      rw [download_file_miss_success oracle currentYear cacheDir st asset_code
        year body hnot ho]

theorem C4_cache_policy_witness :
    (download_file (fun _ _ => some "BODY") 2025 "cache" ⟨emptyFS, 0⟩
      "LTN" 2020).2.calls = 0 + 1 ∧
    (download_file (fun _ _ => some "BODY") 2025 "cache"
        (download_file (fun _ _ => some "BODY") 2025 "cache" ⟨emptyFS, 0⟩
          "LTN" 2020).2 "LTN" 2020).2.calls =
      (download_file (fun _ _ => some "BODY") 2025 "cache" ⟨emptyFS, 0⟩
        "LTN" 2020).2.calls :=
  ⟨((C4_cache_policy (fun _ _ => some "BODY") (fun _ _ => some "BODY")
      2025 "cache" ⟨emptyFS, 0⟩ "LTN" 2020).2.1 (by decide)).1,
    (C4_cache_policy (fun _ _ => some "BODY") (fun _ _ => some "BODY")
      2025 "cache" ⟨emptyFS, 0⟩ "LTN" 2020).2.2.1 (by decide) (by decide)⟩

/-- Claim C5: every row in the table returned by `_clean_data` has all
five fields non-null (rows failing numeric or date coercion are dropped)
and a bid price different from zero. -/
theorem C5_clean_data_invariant (toNum : String → Option ℚ)
    (toDate : String → Option PyDate) (rows : List RawRow) (r : CleanRow)
    (hr : r ∈ clean_data toNum toDate rows) :
    r.ref_date.isSome = true ∧ r.yield_bid.isSome = true ∧
    r.yield_ask.isSome = true ∧ r.price_bid.isSome = true ∧
    r.price_ask.isSome = true ∧ r.price_bid ≠ some 0 := by
  unfold clean_data at hr
  by_cases hempty : rows.isEmpty
  · simp [hempty] at hr
  · rw [if_neg hempty] at hr
    rw [List.mem_filter] at hr
    obtain ⟨hr1, hzero⟩ := hr
    rw [List.mem_filter] at hr1
    obtain ⟨_, hcomp⟩ := hr1
    unfold rowComplete at hcomp
    simp only [Bool.and_eq_true] at hcomp
    exact ⟨hcomp.1.1.1.1, hcomp.1.1.1.2, hcomp.1.1.2, hcomp.1.2,
      hcomp.2, of_decide_eq_true hzero⟩

theorem C5_clean_data_invariant_witness :
    (⟨some ⟨2020, 1, 2⟩, some 1, some 1, some 1, some 1⟩ : CleanRow).price_bid ≠
      some 0 :=
  (C5_clean_data_invariant (fun s => if s = "1" then some 1 else none)
    (fun s => if s = "d" then some ⟨2020, 1, 2⟩ else none)
    [⟨"d", "1", "1", "1", "1"⟩]
    ⟨some ⟨2020, 1, 2⟩, some 1, some 1, some 1, some 1⟩
    (by decide)).2.2.2.2.2

/-- Claim C6: a `get_treasury_data` call whose asset list contains a
non-catalog code fails validation (`ValueError`, the `Except.error`
branch) with the filesystem unchanged and zero network calls — before any
download or parse step runs. -/
theorem C6_invalid_code_fails_fast (oracle : String → Nat → Option String)
    (parse : String → Option (List (String × List RawRow)))
    (toNum : String → Option ℚ) (toDate : String → Option PyDate)
    (currentYear : Nat) (cacheDir : String) (fs0 : FS) (codes : List String)
    (first_year : Nat) (last_year? : Option Nat)
    (c : String) (hc : c ∈ codes) (hinv : c ∉ AVAILABLE_ASSETS) :
    get_treasury_data oracle parse toNum toDate currentYear cacheDir fs0
        (some codes) first_year last_year? =
      (Except.error (codes.filter (fun c => !(AVAILABLE_ASSETS.contains c))),
        ⟨fs0, 0⟩) := by
  have hmem : c ∈ codes.filter (fun c => !(AVAILABLE_ASSETS.contains c)) := by
    rw [List.mem_filter]
    exact ⟨hc, by simp [hinv]⟩
  have hne : (codes.filter (fun c => !(AVAILABLE_ASSETS.contains c))).isEmpty
      = false := by
    rcases hx : codes.filter (fun c => !(AVAILABLE_ASSETS.contains c)) with
      _ | ⟨a, tl⟩
    · rw [hx] at hmem; cases hmem
    · rfl
  unfold get_treasury_data
  simp only [Option.getD_some]
  rw [if_neg (fun hcontra => by rw [hne] at hcontra; exact Bool.false_ne_true hcontra)]

theorem C6_invalid_code_fails_fast_witness :
    get_treasury_data (fun _ _ => none) (fun _ => none) (fun _ => none)
        (fun _ => none) 2025 "cache" emptyFS (some ["FOO"]) 2020 none =
      (Except.error ["FOO"], ⟨emptyFS, 0⟩) := by
  have h := C6_invalid_code_fails_fast (fun _ _ => none) (fun _ => none)
    (fun _ => none) (fun _ => none) 2025 "cache" emptyFS ["FOO"] 2020 none
    "FOO" (by decide) (by decide)
  simpa using h

/-! ## Sortedness helpers -/

theorem rowLE_prop (a b : OutRow) (h : rowLE a b = true) :
    a.asset_code < b.asset_code ∨
      (a.asset_code = b.asset_code ∧ dateKey a.ref_date ≤ dateKey b.ref_date) := by
  unfold rowLE at h
  exact of_decide_eq_true h

theorem rowLE_trans (a b c : OutRow) (hab : rowLE a b = true)
    (hbc : rowLE b c = true) : rowLE a c = true := by
  have h1 := rowLE_prop a b hab
  have h2 := rowLE_prop b c hbc
  unfold rowLE
  apply decide_eq_true
  rcases h1 with h1 | ⟨h1, h1'⟩
  · rcases h2 with h2 | ⟨h2, h2'⟩
    · exact Or.inl (lt_trans h1 h2)
    · exact Or.inl (h2 ▸ h1)
  · rcases h2 with h2 | ⟨h2, h2'⟩
    · exact Or.inl (h1 ▸ h2)
    · exact Or.inr ⟨h1.trans h2, le_trans h1' h2'⟩

theorem rowLE_total (a b : OutRow) : (rowLE a b || rowLE b a) = true := by
  rw [Bool.or_eq_true]
  unfold rowLE
  rw [decide_eq_true_iff, decide_eq_true_iff]
  rcases lt_trichotomy a.asset_code b.asset_code with h | h | h
  · exact Or.inl (Or.inl h)
  · rcases Nat.le_total (dateKey a.ref_date) (dateKey b.ref_date) with h' | h'
    · exact Or.inl (Or.inr ⟨h, h'⟩)
    · exact Or.inr (Or.inr ⟨h.symm, h'⟩)
  · exact Or.inr (Or.inl h)

theorem sortRows_chain (rows : List OutRow) :
    (sortRows rows).Chain' (fun r1 r2 => r1.asset_code < r2.asset_code ∨
      (r1.asset_code = r2.asset_code ∧
        dateKey r1.ref_date ≤ dateKey r2.ref_date)) := by
  have hp : (rows.mergeSort rowLE).Pairwise (fun a b => rowLE a b = true) :=
    List.sorted_mergeSort rowLE_trans rowLE_total rows
  exact (hp.imp (fun h => rowLE_prop _ _ h)).chain'

/-! ## Claim C7 -/

/-- Claim C7: any dataset returned by `get_treasury_data` is sorted by
`(asset_code, ref_date)` ascending: consecutive rows have strictly
increasing asset codes, or equal asset codes and non-decreasing reference
dates. -/
theorem C7_dataset_sorted (oracle : String → Nat → Option String)
    (parse : String → Option (List (String × List RawRow)))
    (toNum : String → Option ℚ) (toDate : String → Option PyDate)
    (currentYear : Nat) (cacheDir : String) (fs0 : FS)
    (asset_codes? : Option (List String)) (first_year : Nat)
    (last_year? : Option Nat) (rows : List OutRow)
    (hok : (get_treasury_data oracle parse toNum toDate currentYear cacheDir
      fs0 asset_codes? first_year last_year?).1 = Except.ok rows) :
    rows.Chain' (fun r1 r2 => r1.asset_code < r2.asset_code ∨
      (r1.asset_code = r2.asset_code ∧
        dateKey r1.ref_date ≤ dateKey r2.ref_date)) := by
  simp only [get_treasury_data] at hok
  repeat' split at hok
  all_goals first
    | (injection hok with h; subst h;
        first
          | exact List.chain'_nil
          | exact sortRows_chain _)
    | simp at hok

theorem C7_dataset_sorted_witness :
    (([] : List OutRow)).Chain' (fun r1 r2 => r1.asset_code < r2.asset_code ∨
      (r1.asset_code = r2.asset_code ∧
        dateKey r1.ref_date ≤ dateKey r2.ref_date)) :=
  C7_dataset_sorted (fun _ _ => none) (fun _ => none) (fun _ => none)
    (fun _ => none) 2025 "cache" emptyFS (some ["LTN"]) 2020 (some 2020) []
    rfl

/-! ## Helper lemmas for C8 and C10 -/

theorem invalid_filter_nil (codes : List String)
    (hvalid : ∀ c ∈ codes, c ∈ AVAILABLE_ASSETS) :
    codes.filter (fun c => !(AVAILABLE_ASSETS.contains c)) = [] := by
  rw [List.filter_eq_nil_iff]
  intro c hc
  simp [hvalid c hc]

/-- An `Except` value known to be `ok`. -/
def isOkE : Except (List String) (List OutRow) → Bool
  | Except.ok _ => true
  | Except.error _ => false

theorem exists_ok_of_isOkE (e : Except (List String) (List OutRow))
    (h : isOkE e = true) : ∃ rows, e = Except.ok rows := by
  cases e with
  | ok r => exact ⟨r, rfl⟩
  | error _ => cases h

theorem fetchStep_fail (oracle : String → Nat → Option String)
    (cy : Nat) (dir : String) (acc : List String × St) (a : String) (y : Nat)
    (ho : oracle a y = none) (hfs : acc.2.fs = emptyFS) :
    fetchStep oracle cy dir acc a y = (acc.1, ⟨emptyFS, acc.2.calls + 1⟩) := by
  have hcond : ¬(acc.2.fs.existsFile (localFilePath dir a y) = true ∧
      y ≠ cy) := by
    rw [hfs]
    simp [emptyFS, FS.existsFile, FS.lookup]
  unfold fetchStep
  rw [download_file_miss_fail oracle cy dir acc.2 a y hcond ho, hfs]

theorem fetchYears_fail (oracle : String → Nat → Option String)
    (cy : Nat) (dir : String) (a : String) (ho : ∀ y, oracle a y = none) :
    ∀ (years : List Nat) (acc : List String × St), acc.2.fs = emptyFS →
      ∃ n, years.foldl (fun acc2 y => fetchStep oracle cy dir acc2 a y) acc =
        (acc.1, ⟨emptyFS, n⟩) := by
  intro years
  induction years with
  | nil =>
    intro acc hfs
    obtain ⟨files, fs, calls⟩ := acc
    change fs = emptyFS at hfs
    subst hfs
    exact ⟨calls, rfl⟩
  | cons y ys ih =>
    intro acc hfs
    rw [List.foldl_cons, fetchStep_fail oracle cy dir acc a y (ho y) hfs]
    obtain ⟨n, hn⟩ := ih (acc.1, ⟨emptyFS, acc.2.calls + 1⟩) rfl
    exact ⟨n, by rw [hn]⟩

theorem fetchAssets_fail (oracle : String → Nat → Option String)
    (cy : Nat) (dir : String) (years : List Nat)
    (ho : ∀ a y, oracle a y = none) :
    ∀ (assets : List String) (acc : List String × St), acc.2.fs = emptyFS →
      ∃ n, assets.foldl (fun acc2 a => years.foldl
          (fun acc3 y => fetchStep oracle cy dir acc3 a y) acc2) acc =
        (acc.1, ⟨emptyFS, n⟩) := by
  intro assets
  induction assets with
  | nil =>
    intro acc hfs
    obtain ⟨files, fs, calls⟩ := acc
    change fs = emptyFS at hfs
    subst hfs
    exact ⟨calls, rfl⟩
  | cons a tl ih =>
    intro acc hfs
    rw [List.foldl_cons]
    obtain ⟨m, hm⟩ := fetchYears_fail oracle cy dir a (ho a) years acc hfs
    rw [hm]
    obtain ⟨n, hn⟩ := ih (acc.1, ⟨emptyFS, m⟩) rfl
    exact ⟨n, by rw [hn]⟩

theorem fetchAll_nil_years (oracle : String → Nat → Option String)
    (cy : Nat) (dir : String) (assets : List String) (st0 : St) :
    fetchAll oracle cy dir assets [] st0 = ([], st0) := by
  unfold fetchAll
  induction assets with
  | nil => rfl
  | cons a tl ih =>
    rw [List.foldl_cons]
    exact ih

/-! ## Claim C8 -/

/-- Claim C8: with valid parameters the pipeline never raises for partial
data problems — the result is always `Except.ok`; a failed `_download_file`
leaves the file list unchanged (the pair is omitted); a missing or
unparseable file contributes the empty table; and when every fetch fails
(fresh cache) or every file is unparseable the call returns the empty
dataset rather than raising. -/
theorem C8_partial_failures_recovered (oracle : String → Nat → Option String)
    (parse : String → Option (List (String × List RawRow)))
    (toNum : String → Option ℚ) (toDate : String → Option PyDate)
    (currentYear : Nat) (cacheDir : String) (fs0 : FS)
    (asset_codes? : Option (List String)) (first_year : Nat)
    (last_year? : Option Nat) :
    ((∀ c ∈ asset_codes?.getD AVAILABLE_ASSETS, c ∈ AVAILABLE_ASSETS) →
      ∃ rows, (get_treasury_data oracle parse toNum toDate currentYear
        cacheDir fs0 asset_codes? first_year last_year?).1 = Except.ok rows) ∧
    (∀ (acc : List String × St) a y,
      (download_file oracle currentYear cacheDir acc.2 a y).1 = none →
      (fetchStep oracle currentYear cacheDir acc a y).1 = acc.1) ∧
    (∀ (fs : FS) path, fs.lookup path = none →
      read_excel_file parse toNum toDate fs path = []) ∧
    (∀ (fs : FS) path content, fs.lookup path = some content →
      parse content = none → read_excel_file parse toNum toDate fs path = []) ∧
    ((∀ a y, oracle a y = none) →
      (∀ c ∈ asset_codes?.getD AVAILABLE_ASSETS, c ∈ AVAILABLE_ASSETS) →
      (get_treasury_data oracle parse toNum toDate currentYear cacheDir
        emptyFS asset_codes? first_year last_year?).1 = Except.ok []) ∧
    ((∀ content, parse content = none) →
      (∀ c ∈ asset_codes?.getD AVAILABLE_ASSETS, c ∈ AVAILABLE_ASSETS) →
      (get_treasury_data oracle parse toNum toDate currentYear cacheDir fs0
        asset_codes? first_year last_year?).1 = Except.ok []) := by
  refine ⟨?_, ?_, ?_, ?_, ?_, ?_⟩
  · intro hvalid
    apply exists_ok_of_isOkE
    simp only [get_treasury_data]
    rw [if_pos (by rw [invalid_filter_nil _ hvalid]; rfl)]
    repeat' split
    all_goals rfl
  · intro acc a y h
    simp only [fetchStep]
    rw [h]
  · intro fs path h
    unfold read_excel_file
    rw [h]
  · intro fs path content h1 h2
    unfold read_excel_file
    rw [h1]
    simp [h2]
  · intro ho hvalid
    simp only [get_treasury_data]
    rw [if_pos (by rw [invalid_filter_nil _ hvalid]; rfl)]
    have key : ∀ (assets : List String) (years : List Nat), ∃ n,
        fetchAll oracle currentYear cacheDir assets years ⟨emptyFS, 0⟩ =
          ([], ⟨emptyFS, n⟩) := by
      intro assets years
      obtain ⟨n, hn⟩ := fetchAssets_fail oracle currentYear cacheDir years ho
        assets ([], ⟨emptyFS, 0⟩) rfl
      exact ⟨n, by unfold fetchAll; exact hn⟩
    obtain ⟨n, hn⟩ := key _ _
    rw [hn]
    rfl
  · intro hp hvalid
    simp only [get_treasury_data]
    rw [if_pos (by rw [invalid_filter_nil _ hvalid]; rfl)]
    have hread : ∀ (fs : FS) p, read_excel_file parse toNum toDate fs p = [] := by
      intro fs p
      unfold read_excel_file
      cases hl : fs.lookup p with
      | none => rfl
      | some content => simp [hp]
    have hall : ∀ (files : List String) (fs : FS),
        ((files.map (fun p => read_excel_file parse toNum toDate fs p)).filter
          (fun d => !d.isEmpty)) = [] := by
      intro files fs
      rw [List.filter_eq_nil_iff]
      intro d hd
      rw [List.mem_map] at hd
      obtain ⟨p, _, rfl⟩ := hd
      simp [hread]
    rw [hall _ _]
    repeat' split
    all_goals first
      | rfl
      | simp_all

theorem C8_partial_failures_recovered_witness :
    (get_treasury_data (fun _ _ => none) (fun _ => none) (fun _ => none)
      (fun _ => none) 2025 "cache" emptyFS (some ["LTN"]) 2020
      (some 2020)).1 = Except.ok [] :=
  (C8_partial_failures_recovered (fun _ _ => none) (fun _ => none)
    (fun _ => none) (fun _ => none) 2025 "cache" emptyFS (some ["LTN"]) 2020
    (some 2020)).2.2.2.2.1 (fun _ _ => rfl) (by decide)

/-! ## Claim C10 -/

/-- Claim C10: with valid catalog codes and a clamped-and-defaulted year
range that is empty (effective first year strictly above effective last
year), `get_treasury_data` performs no fetch, creates no cache file, and
returns the empty dataset without raising. -/
theorem C10_empty_year_range (oracle : String → Nat → Option String)
    (parse : String → Option (List (String × List RawRow)))
    (toNum : String → Option ℚ) (toDate : String → Option PyDate)
    (currentYear : Nat) (cacheDir : String) (fs0 : FS) (codes : List String)
    (first_year : Nat) (last_year? : Option Nat)
    (hvalid : ∀ c ∈ codes, c ∈ AVAILABLE_ASSETS)
    (hrange : last_year?.getD currentYear <
      (if first_year < FIRST_YEAR then FIRST_YEAR else first_year)) :
    get_treasury_data oracle parse toNum toDate currentYear cacheDir fs0
      (some codes) first_year last_year? = (Except.ok [], ⟨fs0, 0⟩) := by
  simp only [get_treasury_data, Option.getD_some]
  rw [if_pos (by rw [invalid_filter_nil codes hvalid]; rfl)]
  by_cases hc : first_year < FIRST_YEAR
  · rw [if_pos hc] at hrange ⊢
    have h0 : last_year?.getD currentYear + 1 - FIRST_YEAR = 0 := by omega
    rw [h0]
    rw [show List.range' FIRST_YEAR 0 = [] from rfl]
    rw [fetchAll_nil_years oracle currentYear cacheDir codes ⟨fs0, 0⟩]
    rfl
  · rw [if_neg hc] at hrange ⊢
    have h0 : last_year?.getD currentYear + 1 - first_year = 0 := by omega
    rw [h0]
    rw [show List.range' first_year 0 = [] from rfl]
    rw [fetchAll_nil_years oracle currentYear cacheDir codes ⟨fs0, 0⟩]
    rfl

theorem C10_empty_year_range_witness :
    get_treasury_data (fun _ _ => some "BODY") (fun _ => none) (fun _ => none)
      (fun _ => none) 2025 "cache" emptyFS (some ["LTN"]) 2023 (some 2022) =
      (Except.ok [], ⟨emptyFS, 0⟩) :=
  C10_empty_year_range (fun _ _ => some "BODY") (fun _ => none) (fun _ => none)
    (fun _ => none) 2025 "cache" emptyFS ["LTN"] 2023 (some 2022)
    (by decide) (by decide)

/-! ## Claim C9 -/

/-- Claim C9: `get_available_assets` returns a fresh copy of the catalog
list: the returned object is a different list object, it holds the catalog
elements, and mutating it leaves the catalog object unchanged. -/
theorem C9_returns_fresh_copy (h : Heap) (a0 : Nat)
    (hcat : h.get a0 = some AVAILABLE_ASSETS) (hlt : a0 < h.next) :
    (get_available_assets h a0).1 ≠ a0 ∧
    (get_available_assets h a0).2.get (get_available_assets h a0).1 =
      some AVAILABLE_ASSETS ∧
    ∀ l, ((get_available_assets h a0).2.set (get_available_assets h a0).1
      l).get a0 = some AVAILABLE_ASSETS := by
  have hne : a0 ≠ h.next := Nat.ne_of_lt hlt
  unfold get_available_assets
  rw [hcat]
  unfold Heap.alloc Heap.set Heap.get
  refine ⟨fun hx => hne hx.symm, by simp, ?_⟩
  intro l
  unfold Heap.get at hcat
  simp only [List.find?_cons]
  rw [show (h.next == a0) = false from by simpa using fun hx => hne hx.symm]
  exact hcat

theorem C9_returns_fresh_copy_witness :
    ((get_available_assets ⟨1, [(0, AVAILABLE_ASSETS)]⟩ 0).2.set
      (get_available_assets ⟨1, [(0, AVAILABLE_ASSETS)]⟩ 0).1 []).get 0 =
      some AVAILABLE_ASSETS :=
  (C9_returns_fresh_copy ⟨1, [(0, AVAILABLE_ASSETS)]⟩ 0 (by decide)
    (by decide)).2.2 []

end TesouroData
